import Mathlib

/-
Verification development for the janaru voice-to-task application.

The embedding covers the service layer of the repository:
  - src/services/claude-api-service.ts  (ClaudeApiService: processTranscript,
    mockProcessTranscript, the prompt template)
  - src/services/task-service.ts        (TaskService: loadTasks, saveTasks,
    processTranscript, getTaskById, markTaskAsCompleted)
  - src/services/recording-service.ts   (RecordingService: getRecordings,
    updateRecordingTranscript, markRecordingAsProcessed)

External effects are made explicit parameters:
  - the clock and the random generator behind generateSecureId become a
    function `gen : Nat -> String` giving the suffix of the k-th call;
  - JavaScript Date values become integer day counts, and the YYYY-MM-DD
    rendering of formatDate becomes a parameter `fmt : Int -> String`;
  - the hosted LLM call becomes an `ApiOutcome` value describing how far the
    production request got (key lookup, HTTP request, JSON extraction);
  - AsyncStorage becomes a map from keys to stored JSON values, with
    JSON.stringify / JSON.parse modelled at the JSON-value level (the
    string round trip of the JavaScript built-ins is the identity on the
    values they can represent).

In-memory lists that the TypeScript code mutates in place are threaded as
explicit state.
-/

namespace Janaru

/-- Priority of a task: the TypeScript union type high | medium. -/
inductive Priority where
  | high
  | medium
deriving DecidableEq, Repr

/-- SubTask record from task-service.ts / claude-api-service.ts. -/
structure SubTask where
  id : String
  title : String
  completed : Bool
deriving DecidableEq, Repr

/-- Task record from task-service.ts / claude-api-service.ts.  Nullable
fields become Option; the optional subTasks and calendarEventId fields
become Option as well (none models the absent / undefined field). -/
structure Task where
  id : String
  title : String
  priority : Priority
  date : Option String
  time : Option String
  duration : Int
  completed : Bool
  recordingId : String
  subTasks : Option (List SubTask)
  calendarEventId : Option String
deriving DecidableEq, Repr

/-- TaskResponse record: the pair of priority lists returned by the
extraction service. -/
structure TaskResponse where
  highPriorityTasks : List Task
  mediumPriorityTasks : List Task
deriving DecidableEq, Repr

/-- Recording record from recording-service.ts. -/
structure Recording where
  id : String
  title : String
  date : String
  audioUri : String
  transcript : Option String
  duration : Int
  processed : Bool
  fileSize : Option Int
deriving DecidableEq, Repr

/-- Model of JavaScript String.prototype.toLowerCase restricted to the
ASCII range (Char.toLower lowers exactly the characters A-Z). -/
def jsToLower (s : String) : String :=
  ⟨s.data.map Char.toLower⟩

/-- Model of JavaScript String.prototype.includes: the pattern occurs as a
contiguous substring. -/
def jsIncludes (s pat : String) : Bool :=
  decide (pat.data <:+: s.data)

/-- Model of the external inputs of mockProcessTranscript: `gen k` is the
time-and-random suffix produced by the k-th generateSecureId call, `today`
is the current day as an integer day count, and `fmt` renders a day count
the way formatDate renders a Date. -/
structure MockEnv where
  gen : Nat → String
  today : Int
  fmt : Int → String

/-- Model of generateSecureId: the literal prefix, an underscore, and the
externally produced suffix of the k-th call. -/
def generateSecureId (gen : Nat → String) (k : Nat) (pre : String) : String :=
  pre ++ "_" ++ gen k

/-- Tax task pushed by mockProcessTranscript when the transcript mentions
tax. -/
def mockTaxTask (env : MockEnv) (k : Nat) (day : Int) (recordingId : String) : Task :=
  { id := generateSecureId env.gen k "task"
    title := "File your taxes"
    priority := .high
    date := some (env.fmt day)
    time := some "18:00"
    duration := 120
    completed := false
    recordingId := recordingId
    subTasks := none
    calendarEventId := none }

/-- Vet task pushed when the transcript mentions dog together with vet or
doctor. -/
def mockDogTask (env : MockEnv) (k : Nat) (day : Int) (recordingId : String) : Task :=
  { id := generateSecureId env.gen k "task"
    title := "Take your dog to the vet"
    priority := .high
    date := some (env.fmt day)
    time := some "18:00"
    duration := 60
    completed := false
    recordingId := recordingId
    subTasks := none
    calendarEventId := none }

/-- License task pushed when the transcript mentions driver and license. -/
def mockDriverTask (env : MockEnv) (k : Nat) (day : Int) (recordingId : String) : Task :=
  { id := generateSecureId env.gen k "task"
    title := "Help with driver\x27s license"
    priority := .high
    date := some (env.fmt day)
    time := some "10:00"
    duration := 90
    completed := false
    recordingId := recordingId
    subTasks := none
    calendarEventId := none }

/-- Yard-waste task pushed when the transcript mentions yard, waste or
dispose; ids are drawn in object-literal order: the task id first, then the
two subtask ids. -/
def mockYardTask (env : MockEnv) (k : Nat) (day : Int) (recordingId : String) : Task :=
  { id := generateSecureId env.gen k "task"
    title := "Dispose of yard waste"
    priority := .medium
    date := some (env.fmt day)
    time := none
    duration := 60
    completed := false
    recordingId := recordingId
    subTasks := some
      [ { id := generateSecureId env.gen (k + 1) "subtask"
          title := "Research disposal options"
          completed := false }
      , { id := generateSecureId env.gen (k + 2) "subtask"
          title := "Schedule pickup or dropoff"
          completed := false } ]
    calendarEventId := none }

/-- Vacation task pushed when the transcript mentions vacation, burnt out
or burnout. -/
def mockVacationTask (env : MockEnv) (k : Nat) (day : Int) (recordingId : String) : Task :=
  { id := generateSecureId env.gen k "task"
    title := "Plan vacation for burnout recovery"
    priority := .medium
    date := some (env.fmt day)
    time := none
    duration := 120
    completed := false
    recordingId := recordingId
    subTasks := some
      [ { id := generateSecureId env.gen (k + 1) "subtask"
          title := "Research destinations"
          completed := false }
      , { id := generateSecureId env.gen (k + 2) "subtask"
          title := "Check available time off"
          completed := false } ]
    calendarEventId := none }

/-- Default task pushed when no keyword branch fired. -/
def mockDefaultTask (env : MockEnv) (k : Nat) (day : Int) (recordingId : String) : Task :=
  { id := generateSecureId env.gen k "task"
    title := "Review your priorities"
    priority := .high
    date := some (env.fmt day)
    time := some "18:00"
    duration := 30
    completed := false
    recordingId := recordingId
    subTasks := none
    calendarEventId := none }

/-- ClaudeApiService.mockProcessTranscript.  The sequential counter of
generateSecureId calls and the in-place Date mutations performed by
setDate (the dog branch advances today by 2, the driver branch by a
further 5, the vacation branch advances nextWeek by 7) are rendered as
explicit dataflow: each branch receives the counter and day values that
are current when it runs in the TypeScript code. -/
def ClaudeApiService.mockProcessTranscript (env : MockEnv) (transcript recordingId : String) :
    TaskResponse :=
  let low := jsToLower transcript
  let today := env.today
  let nextWeek := env.today + 7
  let taxHit := jsIncludes low "tax"
  let dogHit := jsIncludes low "dog" && (jsIncludes low "vet" || jsIncludes low "doctor")
  let driverHit := jsIncludes low "driver" && jsIncludes low "license"
  let yardHit := jsIncludes low "yard" || jsIncludes low "waste" || jsIncludes low "dispose"
  let vacationHit := jsIncludes low "vacation" || jsIncludes low "burnt out"
                       || jsIncludes low "burnout"
  let c1 := if taxHit then 1 else 0
  let c2 := c1 + (if dogHit then 1 else 0)
  let c3 := c2 + (if driverHit then 1 else 0)
  let c4 := c3 + (if yardHit then 3 else 0)
  let today1 := today + (if dogHit then 2 else 0)
  let today2 := today1 + (if driverHit then 5 else 0)
  let highPriorityTasks :=
    (if taxHit then [mockTaxTask env 0 today recordingId] else [])
      ++ (if dogHit then [mockDogTask env c1 (today + 2) recordingId] else [])
      ++ (if driverHit then [mockDriverTask env c2 (today1 + 5) recordingId] else [])
  let mediumPriorityTasks :=
    (if yardHit then [mockYardTask env c3 nextWeek recordingId] else [])
      ++ (if vacationHit then [mockVacationTask env c4 (nextWeek + 7) recordingId] else [])
  let highPriorityTasks :=
    if highPriorityTasks.length = 0 ∧ mediumPriorityTasks.length = 0 then
      highPriorityTasks ++ [mockDefaultTask env c4 today2 recordingId]
    else highPriorityTasks
  { highPriorityTasks := highPriorityTasks
    mediumPriorityTasks := mediumPriorityTasks }

/-- Replace the first occurrence of pat by rep, the semantics of the
JavaScript String.prototype.replace with a string pattern. -/
def replaceFirstList (pat rep : List Char) : List Char → List Char
  | [] => if pat.isEmpty then rep else []
  | c :: rest =>
    if pat.isPrefixOf (c :: rest) then rep ++ List.drop pat.length (c :: rest)
    else c :: replaceFirstList pat rep rest

/-- The defaultPromptTemplate literal of ClaudeApiService. -/
def ClaudeApiService.defaultPromptTemplate : String :=
  "\nI need you to extract actionable tasks from the following transcript and organize them by priority. For each task:\n1. Create a clear, concise title\n2. Identify a suggested timeframe (specific date if mentioned, or general timing)\n3. Estimate duration if implied\n4. Organize into High Priority (This Week) or Medium Priority (Next 1-2 Weeks)\n5. Break complex tasks into sub-tasks if needed\n\nHere\x27s the transcript:\n{transcript}\n"

/-- The prompt sent to the hosted model: the template with the transcript
placeholder substituted, as built by defaultPromptTemplate.replace. -/
def ClaudeApiService.buildPrompt (transcript : String) : String :=
  ⟨replaceFirstList "{transcript}".data transcript.data
    ClaudeApiService.defaultPromptTemplate.data⟩

/-- Outcome of the external part of the production path of
ClaudeApiService.processTranscript: the secure-store key lookup, the HTTP
request and the JSON extraction are external effects, so how far they get
is an input of the model.  badJson covers both a response text with no
extractable JSON and one whose extracted text JSON.parse rejects. -/
inductive ApiOutcome where
  | keyMissing
  | requestFailed
  | badJson
  | parsed (r : TaskResponse)

/-- Result of one ClaudeApiService.processTranscript call: the prompt that
was forwarded to the hosted API, when a request was made at all, and the
TaskResponse returned to the caller. -/
structure ClaudeCallResult where
  sentPrompt : Option String
  response : TaskResponse

/-- ClaudeApiService.processTranscript.  Outside production the mock runs
directly; in production every failure of the try block (missing key,
failed request, unusable response JSON) is caught and answered with the
mock result, and a parsed response is returned after stamping recordingId
and completed onto every top-level task. -/
def ClaudeApiService.processTranscript (environment : String) (env : MockEnv)
    (outcome : ApiOutcome) (transcript recordingId : String) : ClaudeCallResult :=
  if environment ≠ "production" then
    { sentPrompt := none
      response := ClaudeApiService.mockProcessTranscript env transcript recordingId }
  else
    match outcome with
    | .keyMissing =>
      { sentPrompt := none
        response := ClaudeApiService.mockProcessTranscript env transcript recordingId }
    | .requestFailed =>
      { sentPrompt := some (ClaudeApiService.buildPrompt transcript)
        response := ClaudeApiService.mockProcessTranscript env transcript recordingId }
    | .badJson =>
      { sentPrompt := some (ClaudeApiService.buildPrompt transcript)
        response := ClaudeApiService.mockProcessTranscript env transcript recordingId }
    | .parsed r =>
      { sentPrompt := some (ClaudeApiService.buildPrompt transcript)
        response :=
          { highPriorityTasks :=
              r.highPriorityTasks.map
                (fun t => { t with recordingId := recordingId, completed := false })
            mediumPriorityTasks :=
              r.mediumPriorityTasks.map
                (fun t => { t with recordingId := recordingId, completed := false }) } }

/-- The three in-memory task lists of TaskService. -/
structure TaskState where
  highPriorityTasks : List Task
  mediumPriorityTasks : List Task
  completedTasks : List Task
deriving DecidableEq, Repr

/-- One step of the subtask normalization loop of
TaskService.processTranscript: assign a fresh id to a subtask whose id is
empty (the falsy case) and force completed to false.  The Nat is the
running count of generateSecureId calls. -/
def normalizeSubTask (gen : Nat → String) (s : SubTask) (c : Nat) : SubTask × Nat :=
  if s.id = "" then
    ({ s with id := generateSecureId gen c "subtask", completed := false }, c + 1)
  else
    ({ s with completed := false }, c)

/-- Subtask normalization over a list, threading the id counter. -/
def normalizeSubTasks (gen : Nat → String) : List SubTask → Nat → List SubTask × Nat
  | [], c => ([], c)
  | s :: rest, c =>
    let p := normalizeSubTask gen s c
    let q := normalizeSubTasks gen rest p.2
    (p.1 :: q.1, q.2)

/-- One step of the task normalization loop of
TaskService.processTranscript: assign a fresh id when the id is empty,
force completed to false, and normalize the subtasks when present. -/
def normalizeTask (gen : Nat → String) (t : Task) (c : Nat) : Task × Nat :=
  let idp : String × Nat :=
    if t.id = "" then (generateSecureId gen c "task", c + 1) else (t.id, c)
  match t.subTasks with
  | none => ({ t with id := idp.1, completed := false, subTasks := none }, idp.2)
  | some l =>
    let q := normalizeSubTasks gen l idp.2
    ({ t with id := idp.1, completed := false, subTasks := some q.1 }, q.2)

/-- Task normalization over a list, threading the id counter. -/
def normalizeTasks (gen : Nat → String) : List Task → Nat → List Task × Nat
  | [], c => ([], c)
  | t :: rest, c =>
    let p := normalizeTask gen t c
    let q := normalizeTasks gen rest p.2
    (p.1 :: q.1, q.2)

/-- TaskService.processTranscript from task-service.ts: call the Claude
service, normalize ids and completion flags of the response, drop every
stored task carrying this recordingId, and append the new tasks.  gen
supplies the suffixes of the generateSecureId calls made by the two
normalization loops, in call order. -/
def TaskService.processTranscript (st : TaskState) (environment : String) (env : MockEnv)
    (outcome : ApiOutcome) (gen : Nat → String) (transcript recordingId : String) :
    TaskState × TaskResponse :=
  let response :=
    (ClaudeApiService.processTranscript environment env outcome transcript recordingId).response
  let hp := normalizeTasks gen response.highPriorityTasks 0
  let mp := normalizeTasks gen response.mediumPriorityTasks hp.2
  let response := { highPriorityTasks := hp.1, mediumPriorityTasks := mp.1 : TaskResponse }
  let newHigh :=
    st.highPriorityTasks.filter (fun t => !(t.recordingId == recordingId))
      ++ response.highPriorityTasks
  let newMedium :=
    st.mediumPriorityTasks.filter (fun t => !(t.recordingId == recordingId))
      ++ response.mediumPriorityTasks
  ({ st with highPriorityTasks := newHigh, mediumPriorityTasks := newMedium }, response)

/-- JSON values, the image of JSON.stringify and the domain of JSON.parse.
Numbers are restricted to the integers occurring in this code base. -/
inductive Json where
  | jnull
  | jbool (b : Bool)
  | jnum (n : Int)
  | jstr (s : String)
  | jarr (items : List Json)
  | jobj (fields : List (String × Json))

/-- JSON encoding of a SubTask, fields in declaration order. -/
def encodeSubTask (s : SubTask) : Json :=
  .jobj [("id", .jstr s.id), ("title", .jstr s.title), ("completed", .jbool s.completed)]

/-- Reading a JSON value back as a SubTask, the typed rendering of the
unchecked assignment JSON.parse performs. -/
def decodeSubTask : Json → Option SubTask
  | .jobj f =>
    match f.lookup "id", f.lookup "title", f.lookup "completed" with
    | some (.jstr i), some (.jstr t), some (.jbool b) => some ⟨i, t, b⟩
    | _, _, _ => none
  | _ => none

/-- JSON encoding of a nullable string field. -/
def encodeOptStr : Option String → Json
  | none => .jnull
  | some s => .jstr s

/-- JSON encoding of a Task: nullable fields become null, absent optional
fields are omitted, as JSON.stringify does for undefined. -/
def encodeTask (t : Task) : Json :=
  .jobj
    ([("id", .jstr t.id), ("title", .jstr t.title),
      ("priority", .jstr (if t.priority = .high then "high" else "medium")),
      ("date", encodeOptStr t.date), ("time", encodeOptStr t.time),
      ("duration", .jnum t.duration), ("completed", .jbool t.completed),
      ("recordingId", .jstr t.recordingId)]
      ++ (match t.subTasks with
          | none => []
          | some l => [("subTasks", .jarr (l.map encodeSubTask))])
      ++ (match t.calendarEventId with
          | none => []
          | some e => [("calendarEventId", .jstr e)]))

/-- Reading a list of JSON values element by element. -/
def decodeListWith (dec : Json → Option α) : List Json → Option (List α)
  | [] => some []
  | j :: rest =>
    match dec j, decodeListWith dec rest with
    | some a, some l => some (a :: l)
    | _, _ => none

/-- Reading a JSON value back as a Task. -/
def decodeTask (j : Json) : Option Task :=
  match j with
  | .jobj f =>
    match f.lookup "id", f.lookup "title", f.lookup "priority", f.lookup "date",
        f.lookup "time", f.lookup "duration", f.lookup "completed",
        f.lookup "recordingId" with
    | some (.jstr i), some (.jstr ttl), some (.jstr p), some dj, some tj,
        some (.jnum dur), some (.jbool cpl), some (.jstr rid) =>
      let priority? : Option Priority :=
        if p = "high" then some .high else if p = "medium" then some .medium else none
      let date? : Option (Option String) :=
        match dj with | .jnull => some none | .jstr s => some (some s) | _ => none
      let time? : Option (Option String) :=
        match tj with | .jnull => some none | .jstr s => some (some s) | _ => none
      let subs? : Option (Option (List SubTask)) :=
        match f.lookup "subTasks" with
        | none => some none
        | some (.jarr items) => (decodeListWith decodeSubTask items).map some
        | some _ => none
      let cal? : Option (Option String) :=
        match f.lookup "calendarEventId" with
        | none => some none
        | some (.jstr e) => some (some e)
        | some _ => none
      match priority?, date?, time?, subs?, cal? with
      | some pr, some d, some tm, some sb, some cl =>
        some ⟨i, ttl, pr, d, tm, dur, cpl, rid, sb, cl⟩
      | _, _, _, _, _ => none
    | _, _, _, _, _, _, _, _ => none
  | _ => none

/-- JSON encoding of a task list, the value JSON.stringify serializes. -/
def encodeTasks (l : List Task) : Json :=
  .jarr (l.map encodeTask)

/-- Reading a JSON value back as a task list. -/
def decodeTasks : Json → Option (List Task)
  | .jarr items => decodeListWith decodeTask items
  | _ => none

/-- AsyncStorage modelled as a map from keys to stored JSON values. -/
def Storage := String → Option Json

/-- TaskService.saveTasks: serialize each of the three lists to its own
storage key. -/
def TaskService.saveTasks (st : TaskState) (σ : Storage) : Storage :=
  fun k =>
    if k = "@janaru_high_priority_tasks" then some (encodeTasks st.highPriorityTasks)
    else if k = "@janaru_medium_priority_tasks" then some (encodeTasks st.mediumPriorityTasks)
    else if k = "@janaru_completed_tasks" then some (encodeTasks st.completedTasks)
    else σ k

/-- TaskService.loadTasks: for each key, a missing entry keeps the current
in-memory list and a present entry replaces it with the parsed value; none
models the stored value not being a task list, a state the typed in-memory
lists cannot take. -/
def TaskService.loadTasks (σ : Storage) (st : TaskState) : Option TaskState :=
  match
    (match σ "@janaru_high_priority_tasks" with
     | none => some st
     | some j =>
       match decodeTasks j with
       | some l => some { st with highPriorityTasks := l }
       | none => none) with
  | none => none
  | some st =>
    match
      (match σ "@janaru_medium_priority_tasks" with
       | none => some st
       | some j =>
         match decodeTasks j with
         | some l => some { st with mediumPriorityTasks := l }
         | none => none) with
    | none => none
    | some st =>
      match σ "@janaru_completed_tasks" with
      | none => some st
      | some j =>
        match decodeTasks j with
        | some l => some { st with completedTasks := l }
        | none => none

/-- Insert r into a list already sorted by descending key, after every
element with a key at least as large: the placement a stable descending
sort gives one element. -/
def insertDescBy (key : Recording → Int) (r : Recording) : List Recording → List Recording
  | [] => [r]
  | x :: xs => if key x < key r then r :: x :: xs else x :: insertDescBy key r xs

/-- Stable sort by descending key, the observable behavior of
Array.prototype.sort with the comparator (a, b) => key b - key a. -/
def sortDescBy (key : Recording → Int) : List Recording → List Recording
  | [] => []
  | x :: xs => insertDescBy key x (sortDescBy key xs)

/-- RecordingService.getRecordings: a copy of the stored array sorted by
date, newest first.  dateVal is the external Date parser giving the
timestamp new Date(s).getTime() of a date string. -/
def RecordingService.getRecordings (dateVal : String → Int) (recs : List Recording) :
    List Recording :=
  sortDescBy (fun r => dateVal r.date) recs

/-- Apply f to the first element satisfying p, the pure rendering of
finding an element with Array.prototype.find and mutating it in place. -/
def updateFirst (p : α → Bool) (f : α → α) : List α → List α
  | [] => []
  | x :: xs => if p x then f x :: xs else x :: updateFirst p f xs

/-- RecordingService.updateRecordingTranscript: find the recording, throw
Recording not found when it is absent (leaving the stored list untouched),
otherwise set its transcript and keep everything else. -/
def RecordingService.updateRecordingTranscript (recs : List Recording)
    (id transcript : String) : Except String (List Recording) :=
  if recs.any (fun r => r.id == id) then
    .ok (updateFirst (fun r => r.id == id)
      (fun r => { r with transcript := some transcript }) recs)
  else
    .error "Recording not found"

/-- RecordingService.markRecordingAsProcessed: find the recording, throw
Recording not found when it is absent, otherwise set its processed flag. -/
def RecordingService.markRecordingAsProcessed (recs : List Recording)
    (id : String) : Except String (List Recording) :=
  if recs.any (fun r => r.id == id) then
    .ok (updateFirst (fun r => r.id == id) (fun r => { r with processed := true }) recs)
  else
    .error "Recording not found"

/-- TaskService.getTaskById: search the high, medium and completed lists in
that order. -/
def TaskService.getTaskById (st : TaskState) (taskId : String) : Option Task :=
  match st.highPriorityTasks.find? (fun t => t.id == taskId) with
  | some t => some t
  | none =>
    match st.mediumPriorityTasks.find? (fun t => t.id == taskId) with
    | some t => some t
    | none => st.completedTasks.find? (fun t => t.id == taskId)

/-- TaskService.markTaskAsCompleted: look the task up; when absent, throw
Task not found.  When found, the TypeScript code mutates the found object
in place (rendered here as updateFirst on the list the lookup found it in),
then filters the active list selected by the task priority, then pushes the
found object onto completedTasks. -/
def TaskService.markTaskAsCompleted (st : TaskState) (taskId : String) :
    Except String TaskState :=
  match TaskService.getTaskById st taskId with
  | none => .error "Task not found"
  | some t =>
    let t' := { t with completed := true }
    let setDone := fun (x : Task) => { x with completed := true }
    let st1 :=
      if st.highPriorityTasks.any (fun x => x.id == taskId) then
        { st with highPriorityTasks :=
            updateFirst (fun x => x.id == taskId) setDone st.highPriorityTasks }
      else if st.mediumPriorityTasks.any (fun x => x.id == taskId) then
        { st with mediumPriorityTasks :=
            updateFirst (fun x => x.id == taskId) setDone st.mediumPriorityTasks }
      else
        { st with completedTasks :=
            updateFirst (fun x => x.id == taskId) setDone st.completedTasks }
    let st2 :=
      if t'.priority = .high then
        { st1 with highPriorityTasks :=
            st1.highPriorityTasks.filter (fun x => !(x.id == taskId)) }
      else
        { st1 with mediumPriorityTasks :=
            st1.mediumPriorityTasks.filter (fun x => !(x.id == taskId)) }
    .ok { st2 with completedTasks := st2.completedTasks ++ [t'] }

/-- Everything of the prompt template before the transcript placeholder. -/
def promptHead : String :=
  "\nI need you to extract actionable tasks from the following transcript and organize them by priority. For each task:\n1. Create a clear, concise title\n2. Identify a suggested timeframe (specific date if mentioned, or general timing)\n3. Estimate duration if implied\n4. Organize into High Priority (This Week) or Medium Priority (Next 1-2 Weeks)\n5. Break complex tasks into sub-tasks if needed\n\nHere\x27s the transcript:\n"

/-- Concrete environment used to evaluate the model on sample inputs. -/
def demoEnv : MockEnv :=
  { gen := fun _ => "x", today := 0, fmt := fun _ => "d" }

/-- Sample recording with the earlier date. -/
def recOlder : Recording :=
  { id := "rec_1", title := "first", date := "2025-03-21T10:30:00.000Z", audioUri := "u1",
    transcript := none, duration := 32, processed := true, fileSize := none }

/-- Sample recording with the later date. -/
def recNewer : Recording :=
  { id := "rec_2", title := "second", date := "2025-03-21T15:45:00.000Z", audioUri := "u2",
    transcript := none, duration := 18, processed := false, fileSize := none }

/-- Concrete Date parser for the two sample date strings. -/
def demoDateVal : String → Int :=
  fun s => if s = "2025-03-21T15:45:00.000Z" then 1 else 0

/-- Sample high-priority task stored under id t1. -/
def demoTaskHigh : Task :=
  { id := "t1", title := "Demo task", priority := .high, date := none, time := none,
    duration := 30, completed := false, recordingId := "rec_1", subTasks := none,
    calendarEventId := none }

/-- Sample TaskResponse parsed from a production model reply. -/
def demoParsed : TaskResponse :=
  { highPriorityTasks :=
      [{ id := "p1", title := "Parsed task", priority := .high, date := none, time := none,
         duration := 15, completed := true, recordingId := "other", subTasks := none,
         calendarEventId := none }]
    mediumPriorityTasks := [] }


/-- Round trip of the SubTask JSON encoding. -/
lemma decodeSubTask_encode (s : SubTask) : decodeSubTask (encodeSubTask s) = some s := by
  cases s
  rfl

/-- Round trip of the SubTask list JSON encoding. -/
lemma decodeListWith_encodeSubTask (l : List SubTask) :
    decodeListWith decodeSubTask (l.map encodeSubTask) = some l := by
  induction l with
  | nil => rfl
  | cons s rest ih => simp [decodeListWith, decodeSubTask_encode, ih]

/-- Round trip of the Task JSON encoding. -/
lemma decodeTask_encode (t : Task) : decodeTask (encodeTask t) = some t := by
  rcases t with ⟨i, ttl, pr, d, tm, dur, cpl, rid, sb, cl⟩
  cases pr <;> cases d <;> cases tm <;> cases cl <;> cases sb <;>
    simp [encodeTask, decodeTask, encodeOptStr, decodeListWith_encodeSubTask, List.lookup]

/-- Round trip of the task list JSON encoding. -/
lemma decodeTasks_encode (l : List Task) : decodeTasks (encodeTasks l) = some l := by
  induction l with
  | nil => rfl
  | cons t rest ih =>
    simp [decodeTasks, encodeTasks, decodeListWith, decodeTask_encode] at ih ⊢
    simp [ih]

/-- Claim C5: for every value of the three in-memory task lists, saveTasks serializes each list to its own storage key and loadTasks parses those values back to lists equal to the saved ones, whatever the rest of storage and the previous in-memory state were. -/
theorem taskService_save_load_round_trip (st st0 : TaskState) (σ : Storage) :
    TaskService.loadTasks (TaskService.saveTasks st σ) st0 = some st := by
  simp [TaskService.loadTasks, TaskService.saveTasks, decodeTasks_encode]

/-- Insertion keeps the elements, as a permutation. -/
lemma insertDescBy_perm (key : Recording → Int) (r : Recording) (l : List Recording) :
    (insertDescBy key r l).Perm (r :: l) := by
  induction l with
  | nil => simp [insertDescBy]
  | cons x xs ih =>
    simp only [insertDescBy]
    split
    · exact List.Perm.refl _
    · exact (List.Perm.cons x ih).trans (List.Perm.swap r x xs)

/-- The sort permutes the stored recordings. -/
lemma sortDescBy_perm (key : Recording → Int) (l : List Recording) :
    (sortDescBy key l).Perm l := by
  induction l with
  | nil => simp [sortDescBy]
  | cons x xs ih =>
    exact (insertDescBy_perm key x (sortDescBy key xs)).trans (ih.cons x)

/-- Members of an insertion come from the inserted element or the list. -/
lemma mem_insertDescBy {key : Recording → Int} {r x : Recording} {l : List Recording}
    (h : x ∈ insertDescBy key r l) : x = r ∨ x ∈ l := by
  have := (insertDescBy_perm key r l).subset h
  simpa using this

/-- Insertion preserves the descending order. -/
lemma insertDescBy_sorted (key : Recording → Int) (r : Recording) (l : List Recording)
    (h : l.Pairwise (fun a b => key b ≤ key a)) :
    (insertDescBy key r l).Pairwise (fun a b => key b ≤ key a) := by
  induction l with
  | nil => simp [insertDescBy]
  | cons x xs ih =>
    rcases List.pairwise_cons.mp h with ⟨hx, hxs⟩
    simp only [insertDescBy]
    split
    · rename_i hlt
      refine List.pairwise_cons.mpr ⟨?_, h⟩
      intro y hy
      rcases List.mem_cons.mp hy with rfl | hy
      · omega
      · have := hx y hy
        omega
    · rename_i hge
      refine List.pairwise_cons.mpr ⟨?_, ih hxs⟩
      intro y hy
      rcases mem_insertDescBy hy with rfl | hy
      · omega
      · exact hx y hy

/-- The sort output is descending in the key. -/
lemma sortDescBy_sorted (key : Recording → Int) (l : List Recording) :
    (sortDescBy key l).Pairwise (fun a b => key b ≤ key a) := by
  induction l with
  | nil => simp [sortDescBy]
  | cons x xs ih => exact insertDescBy_sorted key x _ ih

/-- Claim C6, amended: getRecordings does impose an ordering: it returns a permutation of the stored recordings sorted by date, newest first, rather than the stored order. -/
theorem recordingService_getRecordings_sorted (dateVal : String → Int)
    (recs : List Recording) :
    (RecordingService.getRecordings dateVal recs).Perm recs ∧
      (RecordingService.getRecordings dateVal recs).Pairwise
        (fun a b => dateVal b.date ≤ dateVal a.date) :=
  ⟨sortDescBy_perm _ recs, sortDescBy_sorted _ recs⟩

/-- Claim C6, counterexample: with the second stored recording dated later than the first, getRecordings returns the recordings in a different order than they were stored, so it does reorder them. -/
theorem getRecordings_reorders :
    RecordingService.getRecordings demoDateVal [recOlder, recNewer] ≠ [recOlder, recNewer] := by
  decide

/-- A successful first-match update splits the list around the first element satisfying the test. -/
lemma updateFirst_decomp {α : Type} {p : α → Bool} (f : α → α) {l : List α}
    (h : l.any p = true) :
    ∃ pre x suf, l = pre ++ x :: suf ∧ (∀ y ∈ pre, p y = false) ∧ p x = true ∧
      updateFirst p f l = pre ++ f x :: suf := by
  induction l with
  | nil => simp at h
  | cons a l ih =>
    by_cases ha : p a = true
    · exact ⟨[], a, l, rfl, by simp, ha, by simp [updateFirst, ha]⟩
    · have ha' : p a = false := by simpa using ha
      have h' : l.any p = true := by simpa [ha'] using h
      obtain ⟨pre, x, suf, h1, h2, h3, h4⟩ := ih h'
      refine ⟨a :: pre, x, suf, by simp [h1], ?_, h3, by simp [updateFirst, ha', h4]⟩
      intro y hy
      rcases List.mem_cons.mp hy with rfl | hy
      · exact ha'
      · exact h2 y hy

/-- Claim C8: updateRecordingTranscript and markRecordingAsProcessed throw Recording not found exactly when no stored recording has the id, in which case the stored list is untouched, and on success change one field of the first matching recording and nothing else. -/
theorem recordingService_update_ops (recs : List Recording) (id transcript : String) :
    (RecordingService.updateRecordingTranscript recs id transcript =
        Except.error "Recording not found" ↔ ∀ r ∈ recs, r.id ≠ id)
    ∧ (∀ recs', RecordingService.updateRecordingTranscript recs id transcript =
          Except.ok recs' →
        ∃ pre r suf, recs = pre ++ r :: suf ∧ (∀ y ∈ pre, y.id ≠ id) ∧ r.id = id ∧
          recs' = pre ++ { r with transcript := some transcript } :: suf)
    ∧ (RecordingService.markRecordingAsProcessed recs id =
        Except.error "Recording not found" ↔ ∀ r ∈ recs, r.id ≠ id)
    ∧ (∀ recs', RecordingService.markRecordingAsProcessed recs id = Except.ok recs' →
        ∃ pre r suf, recs = pre ++ r :: suf ∧ (∀ y ∈ pre, y.id ≠ id) ∧ r.id = id ∧
          recs' = pre ++ { r with processed := true } :: suf) := by
  refine ⟨?_, ?_, ?_, ?_⟩
  · unfold RecordingService.updateRecordingTranscript
    split
    · rename_i hany
      simp only [List.any_eq_true] at hany
      obtain ⟨r, hr, hid⟩ := hany
      simp only [beq_iff_eq] at hid
      constructor
      · intro he
        exact absurd he (by simp)
      · intro hall
        exact absurd hid (hall r hr)
    · rename_i hany
      simp only [List.any_eq_true, not_exists] at hany
      constructor
      · intro _ r hr hid
        exact hany r ⟨hr, by simp [hid]⟩
      · intro _
        rfl
  · intro recs' hok
    unfold RecordingService.updateRecordingTranscript at hok
    split at hok
    · rename_i hany
      obtain ⟨pre, x, suf, h1, h2, h3, h4⟩ :=
        updateFirst_decomp (fun r => { r with transcript := some transcript }) hany
      refine ⟨pre, x, suf, h1, ?_, by simpa using h3, ?_⟩
      · intro y hy
        have := h2 y hy
        simpa using this
      · cases hok
        exact h4.symm ▸ rfl
    · cases hok
  · unfold RecordingService.markRecordingAsProcessed
    split
    · rename_i hany
      simp only [List.any_eq_true] at hany
      obtain ⟨r, hr, hid⟩ := hany
      simp only [beq_iff_eq] at hid
      constructor
      · intro he
        exact absurd he (by simp)
      · intro hall
        exact absurd hid (hall r hr)
    · rename_i hany
      simp only [List.any_eq_true, not_exists] at hany
      constructor
      · intro _ r hr hid
        exact hany r ⟨hr, by simp [hid]⟩
      · intro _
        rfl
  · intro recs' hok
    unfold RecordingService.markRecordingAsProcessed at hok
    split at hok
    · rename_i hany
      obtain ⟨pre, x, suf, h1, h2, h3, h4⟩ :=
        updateFirst_decomp (fun r => { r with processed := true }) hany
      refine ⟨pre, x, suf, h1, ?_, by simpa using h3, ?_⟩
      · intro y hy
        have := h2 y hy
        simpa using this
      · cases hok
        exact h4.symm ▸ rfl
    · cases hok

/-- Witness for claim C8 at a concrete two-recording store. -/
theorem recordingService_update_ops_witness :
    (∃ pre r suf, ([recOlder, recNewer] : List Recording) = pre ++ r :: suf ∧
        (∀ y ∈ pre, y.id ≠ "rec_2") ∧ r.id = "rec_2" ∧
        ([recOlder, { recNewer with transcript := some "hello" }] : List Recording) =
          pre ++ { r with transcript := some "hello" } :: suf)
    ∧ (RecordingService.markRecordingAsProcessed [recOlder, recNewer] "missing" =
        Except.error "Recording not found") := by
  constructor
  · exact (recordingService_update_ops [recOlder, recNewer] "rec_2" "hello").2.1
      [recOlder, { recNewer with transcript := some "hello" }] (by rfl)
  · exact (recordingService_update_ops [recOlder, recNewer] "missing" "x").2.2.1.mpr
      (by decide)

/-- find? returns the head of the matching segment when nothing before it matches. -/
lemma find?_append_first {α : Type} {p : α → Bool} {pre suf : List α} {t : α}
    (hpre : ∀ y ∈ pre, p y = false) (ht : p t = true) :
    List.find? p (pre ++ t :: suf) = some t := by
  induction pre with
  | nil => simp [ht]
  | cons a pre ih =>
    have ha := hpre a (by simp)
    simp only [List.cons_append, List.find?_cons, ha]
    exact ih (fun y hy => hpre y (by simp [hy]))

/-- updateFirst rewrites exactly the first matching element. -/
lemma updateFirst_append_first {α : Type} {p : α → Bool} (f : α → α) {pre suf : List α}
    {t : α} (hpre : ∀ y ∈ pre, p y = false) (ht : p t = true) :
    updateFirst p f (pre ++ t :: suf) = pre ++ f t :: suf := by
  induction pre with
  | nil => simp [updateFirst, ht]
  | cons a pre ih =>
    have ha := hpre a (by simp)
    simp only [List.cons_append, updateFirst, ha]
    simp [ih (fun y hy => hpre y (by simp [hy]))]

/-- Filtering out the matching element keeps everything else. -/
lemma filter_not_removes {α : Type} {p : α → Bool} {pre suf : List α} {t : α}
    (hpre : ∀ y ∈ pre, p y = false) (hsuf : ∀ y ∈ suf, p y = false) (ht : p t = true) :
    (pre ++ t :: suf).filter (fun x => !(p x)) = pre ++ suf := by
  have hpre' : pre.filter (fun x => !(p x)) = pre :=
    List.filter_eq_self.mpr (fun y hy => by simp [hpre y hy])
  have hsuf' : suf.filter (fun x => !(p x)) = suf :=
    List.filter_eq_self.mpr (fun y hy => by simp [hsuf y hy])
  rw [List.filter_append, List.filter_cons]
  simp [ht, hpre', hsuf']

/-- Claim C10: when no list contains the id, markTaskAsCompleted throws Task not found; when the id occurs exactly once over the three lists and its task sits in the active list matching its priority, the task gets completed = true, is removed from that active list and appended to completedTasks, and every other task in all three lists is unchanged. -/
theorem taskService_markTaskAsCompleted_spec (st : TaskState) (taskId : String) :
    ((∀ t ∈ st.highPriorityTasks ++ st.mediumPriorityTasks ++ st.completedTasks,
        t.id ≠ taskId) →
      TaskService.markTaskAsCompleted st taskId = Except.error "Task not found")
    ∧ (∀ pre t suf, st.highPriorityTasks = pre ++ t :: suf → t.id = taskId →
        t.priority = .high →
        (st.highPriorityTasks ++ st.mediumPriorityTasks ++ st.completedTasks).countP
            (fun x => x.id == taskId) = 1 →
        TaskService.markTaskAsCompleted st taskId =
          Except.ok { highPriorityTasks := pre ++ suf,
                      mediumPriorityTasks := st.mediumPriorityTasks,
                      completedTasks :=
                        st.completedTasks ++ [{ t with completed := true }] })
    ∧ (∀ pre t suf, st.mediumPriorityTasks = pre ++ t :: suf → t.id = taskId →
        t.priority = .medium →
        (st.highPriorityTasks ++ st.mediumPriorityTasks ++ st.completedTasks).countP
            (fun x => x.id == taskId) = 1 →
        TaskService.markTaskAsCompleted st taskId =
          Except.ok { highPriorityTasks := st.highPriorityTasks,
                      mediumPriorityTasks := pre ++ suf,
                      completedTasks :=
                        st.completedTasks ++ [{ t with completed := true }] }) := by
  refine ⟨?_, ?_, ?_⟩
  · intro hall
    have h1 : st.highPriorityTasks.find? (fun x => x.id == taskId) = none :=
      List.find?_eq_none.mpr (fun x hx => by
        simp [hall x (by simp [hx])])
    have h2 : st.mediumPriorityTasks.find? (fun x => x.id == taskId) = none :=
      List.find?_eq_none.mpr (fun x hx => by
        simp [hall x (by simp [hx])])
    have h3 : st.completedTasks.find? (fun x => x.id == taskId) = none :=
      List.find?_eq_none.mpr (fun x hx => by
        simp [hall x (by simp [hx])])
    simp [TaskService.markTaskAsCompleted, TaskService.getTaskById, h1, h2, h3]
  · intro pre t suf hdec hid hpr hcount
    have hpt : (fun x : Task => x.id == taskId) t = true := by simp [hid]
    have hzero : (pre.countP (fun x => x.id == taskId)) = 0 ∧
        (suf.countP (fun x => x.id == taskId)) = 0 ∧
        (st.mediumPriorityTasks.countP (fun x => x.id == taskId)) = 0 ∧
        (st.completedTasks.countP (fun x => x.id == taskId)) = 0 := by
      rw [List.countP_append, List.countP_append, hdec, List.countP_append,
        List.countP_cons] at hcount
      simp only [hpt, if_pos] at hcount
      omega
    obtain ⟨hz1, hz2, hz3, hz4⟩ := hzero
    have hpre : ∀ y ∈ pre, (fun x : Task => x.id == taskId) y = false :=
      fun y hy => by simpa using List.countP_eq_zero.mp hz1 y hy
    have hsuf : ∀ y ∈ suf, (fun x : Task => x.id == taskId) y = false :=
      fun y hy => by simpa using List.countP_eq_zero.mp hz2 y hy
    have hfind : st.highPriorityTasks.find? (fun x => x.id == taskId) = some t := by
      rw [hdec]; exact find?_append_first hpre hpt
    have hany : st.highPriorityTasks.any (fun x => x.id == taskId) = true := by
      rw [hdec]; simp [List.any_append, hpt]
    have hupd : updateFirst (fun x => x.id == taskId)
        (fun x => { x with completed := true }) st.highPriorityTasks =
        pre ++ { t with completed := true } :: suf := by
      rw [hdec]; exact updateFirst_append_first _ hpre hpt
    simp only [TaskService.markTaskAsCompleted, TaskService.getTaskById, hfind]
    simp only [hany, if_pos, hupd]
    have hfix1 : List.filter (fun x => !(x.id == taskId)) pre = pre :=
      List.filter_eq_self.mpr (fun y hy => by simp [hpre y hy])
    have hfix2 : List.filter (fun x => !(x.id == taskId)) suf = suf :=
      List.filter_eq_self.mpr (fun y hy => by simp [hsuf y hy])
    simp [hpr, List.filter_cons, hid, hfix1, hfix2]
  · intro pre t suf hdec hid hpr hcount
    have hpt : (fun x : Task => x.id == taskId) t = true := by simp [hid]
    have hzero : (st.highPriorityTasks.countP (fun x => x.id == taskId)) = 0 ∧
        (pre.countP (fun x => x.id == taskId)) = 0 ∧
        (suf.countP (fun x => x.id == taskId)) = 0 ∧
        (st.completedTasks.countP (fun x => x.id == taskId)) = 0 := by
      rw [List.countP_append, List.countP_append, hdec, List.countP_append,
        List.countP_cons] at hcount
      simp only [hpt, if_pos] at hcount
      omega
    obtain ⟨hz0, hz1, hz2, hz4⟩ := hzero
    have hhigh : ∀ y ∈ st.highPriorityTasks, (fun x : Task => x.id == taskId) y = false :=
      fun y hy => by simpa using List.countP_eq_zero.mp hz0 y hy
    have hpre : ∀ y ∈ pre, (fun x : Task => x.id == taskId) y = false :=
      fun y hy => by simpa using List.countP_eq_zero.mp hz1 y hy
    have hsuf : ∀ y ∈ suf, (fun x : Task => x.id == taskId) y = false :=
      fun y hy => by simpa using List.countP_eq_zero.mp hz2 y hy
    have hfindh : st.highPriorityTasks.find? (fun x => x.id == taskId) = none :=
      List.find?_eq_none.mpr (fun x hx => by simp [hhigh x hx])
    have hanyh : st.highPriorityTasks.any (fun x => x.id == taskId) = false := by
      simp only [List.any_eq_false]
      intro x hx
      simp [hhigh x hx]
    have hfind : st.mediumPriorityTasks.find? (fun x => x.id == taskId) = some t := by
      rw [hdec]; exact find?_append_first hpre hpt
    have hany : st.mediumPriorityTasks.any (fun x => x.id == taskId) = true := by
      rw [hdec]; simp [List.any_append, hpt]
    have hupd : updateFirst (fun x => x.id == taskId)
        (fun x => { x with completed := true }) st.mediumPriorityTasks =
        pre ++ { t with completed := true } :: suf := by
      rw [hdec]; exact updateFirst_append_first _ hpre hpt
    simp only [TaskService.markTaskAsCompleted, TaskService.getTaskById, hfindh, hfind]
    simp only [hanyh, hany, Bool.false_eq_true, if_false, if_true, hupd]
    have hfix1 : List.filter (fun x => !(x.id == taskId)) pre = pre :=
      List.filter_eq_self.mpr (fun y hy => by simp [hpre y hy])
    have hfix2 : List.filter (fun x => !(x.id == taskId)) suf = suf :=
      List.filter_eq_self.mpr (fun y hy => by simp [hsuf y hy])
    simp [hpr, List.filter_cons, hid, hfix1, hfix2]

/-- Witness for claim C10 at a one-task state. -/
theorem taskService_markTaskAsCompleted_witness :
    TaskService.markTaskAsCompleted
        { highPriorityTasks := [demoTaskHigh], mediumPriorityTasks := [],
          completedTasks := [] } "t1" =
      Except.ok { highPriorityTasks := [], mediumPriorityTasks := [],
                  completedTasks := [{ demoTaskHigh with completed := true }] } :=
  (taskService_markTaskAsCompleted_spec
      { highPriorityTasks := [demoTaskHigh], mediumPriorityTasks := [],
        completedTasks := [] } "t1").2.1 [] demoTaskHigh [] rfl rfl rfl (by decide)

/-- Every task the mock emits is one of the six task templates. -/
lemma mock_response_forall (env : MockEnv) (transcript recordingId : String)
    (P Q : Task → Prop)
    (hTax : ∀ k day, P (mockTaxTask env k day recordingId))
    (hDog : ∀ k day, P (mockDogTask env k day recordingId))
    (hDriver : ∀ k day, P (mockDriverTask env k day recordingId))
    (hDefault : ∀ k day, P (mockDefaultTask env k day recordingId))
    (hYard : ∀ k day, Q (mockYardTask env k day recordingId))
    (hVacation : ∀ k day, Q (mockVacationTask env k day recordingId)) :
    (∀ t ∈ (ClaudeApiService.mockProcessTranscript env transcript
        recordingId).highPriorityTasks, P t)
    ∧ (∀ t ∈ (ClaudeApiService.mockProcessTranscript env transcript
        recordingId).mediumPriorityTasks, Q t) := by
  unfold ClaudeApiService.mockProcessTranscript
  constructor <;> intro t ht <;> simp only at ht <;>
    repeat' split at ht <;> simp_all <;> aesop

/-- With every keyword test false, the mock returns exactly the default task. -/
lemma mock_no_hits (env : MockEnv) (tr rid : String)
    (h1 : jsIncludes (jsToLower tr) "tax" = false)
    (h2 : (jsIncludes (jsToLower tr) "dog"
      && (jsIncludes (jsToLower tr) "vet" || jsIncludes (jsToLower tr) "doctor")) = false)
    (h3 : (jsIncludes (jsToLower tr) "driver" && jsIncludes (jsToLower tr) "license") = false)
    (h4 : (jsIncludes (jsToLower tr) "yard" || jsIncludes (jsToLower tr) "waste"
      || jsIncludes (jsToLower tr) "dispose") = false)
    (h5 : (jsIncludes (jsToLower tr) "vacation" || jsIncludes (jsToLower tr) "burnt out"
      || jsIncludes (jsToLower tr) "burnout") = false) :
    ClaudeApiService.mockProcessTranscript env tr rid =
      { highPriorityTasks := [mockDefaultTask env 0 env.today rid],
        mediumPriorityTasks := [] } := by
  unfold ClaudeApiService.mockProcessTranscript
  simp [h1, h2, h3, h4, h5]

/-- Claim C9: when no keyword test matches, mockProcessTranscript returns exactly one high-priority task, the default Review your priorities task, and an empty medium-priority list. -/
theorem mock_default_when_no_keyword (env : MockEnv) (tr rid : String)
    (h1 : jsIncludes (jsToLower tr) "tax" = false)
    (h2 : (jsIncludes (jsToLower tr) "dog"
      && (jsIncludes (jsToLower tr) "vet" || jsIncludes (jsToLower tr) "doctor")) = false)
    (h3 : (jsIncludes (jsToLower tr) "driver" && jsIncludes (jsToLower tr) "license") = false)
    (h4 : (jsIncludes (jsToLower tr) "yard" || jsIncludes (jsToLower tr) "waste"
      || jsIncludes (jsToLower tr) "dispose") = false)
    (h5 : (jsIncludes (jsToLower tr) "vacation" || jsIncludes (jsToLower tr) "burnt out"
      || jsIncludes (jsToLower tr) "burnout") = false) :
    (ClaudeApiService.mockProcessTranscript env tr rid).highPriorityTasks.length = 1
    ∧ (∀ t ∈ (ClaudeApiService.mockProcessTranscript env tr rid).highPriorityTasks,
        t.title = "Review your priorities" ∧ t.priority = .high)
    ∧ (ClaudeApiService.mockProcessTranscript env tr rid).mediumPriorityTasks = [] := by
  rw [mock_no_hits env tr rid h1 h2 h3 h4 h5]
  refine ⟨rfl, ?_, rfl⟩
  intro t ht
  rcases List.mem_singleton.mp ht with rfl
  exact ⟨rfl, rfl⟩

/-- Witness for claim C9 at a keyword-free transcript. -/
theorem mock_default_when_no_keyword_witness :
    (ClaudeApiService.mockProcessTranscript demoEnv "hello there" "r1").highPriorityTasks.length = 1
    ∧ (∀ t ∈ (ClaudeApiService.mockProcessTranscript demoEnv "hello there" "r1").highPriorityTasks,
        t.title = "Review your priorities" ∧ t.priority = .high)
    ∧ (ClaudeApiService.mockProcessTranscript demoEnv "hello there" "r1").mediumPriorityTasks = [] :=
  mock_default_when_no_keyword demoEnv "hello there" "r1"
    (by decide) (by decide) (by decide) (by decide) (by decide)

/-- Claim C2, counterexample: the transcript vet contains the substring vet, yet no emitted task is the Take your dog to the vet task, because that branch also requires the substring dog. -/
theorem mock_vet_without_dog :
    ((ClaudeApiService.mockProcessTranscript demoEnv "vet" "r1").highPriorityTasks
      ++ (ClaudeApiService.mockProcessTranscript demoEnv "vet" "r1").mediumPriorityTasks).all
        (fun t => !(t.title == "Take your dog to the vet")) = true := by
  decide

/-- Claim C2, amended: a transcript containing tax (case-insensitively) yields the high-priority File your taxes task; one containing dog together with vet or doctor yields the high-priority Take your dog to the vet task; one containing vacation, burnt out or burnout yields the medium-priority Plan vacation for burnout recovery task; and one containing none of the fixed substrings yields none of these canned tasks. -/
theorem mock_keyword_extraction (env : MockEnv) (tr rid : String) :
    (jsIncludes (jsToLower tr) "tax" = true →
      ∃ t ∈ (ClaudeApiService.mockProcessTranscript env tr rid).highPriorityTasks,
        t.title = "File your taxes" ∧ t.priority = .high)
    ∧ ((jsIncludes (jsToLower tr) "dog"
        && (jsIncludes (jsToLower tr) "vet" || jsIncludes (jsToLower tr) "doctor")) = true →
      ∃ t ∈ (ClaudeApiService.mockProcessTranscript env tr rid).highPriorityTasks,
        t.title = "Take your dog to the vet" ∧ t.priority = .high)
    ∧ ((jsIncludes (jsToLower tr) "vacation" || jsIncludes (jsToLower tr) "burnt out"
        || jsIncludes (jsToLower tr) "burnout") = true →
      ∃ t ∈ (ClaudeApiService.mockProcessTranscript env tr rid).mediumPriorityTasks,
        t.title = "Plan vacation for burnout recovery" ∧ t.priority = .medium)
    ∧ (jsIncludes (jsToLower tr) "tax" = false →
      jsIncludes (jsToLower tr) "dog" = false →
      jsIncludes (jsToLower tr) "vet" = false →
      jsIncludes (jsToLower tr) "doctor" = false →
      jsIncludes (jsToLower tr) "driver" = false →
      jsIncludes (jsToLower tr) "license" = false →
      jsIncludes (jsToLower tr) "yard" = false →
      jsIncludes (jsToLower tr) "waste" = false →
      jsIncludes (jsToLower tr) "dispose" = false →
      jsIncludes (jsToLower tr) "vacation" = false →
      jsIncludes (jsToLower tr) "burnt out" = false →
      jsIncludes (jsToLower tr) "burnout" = false →
      ∀ t ∈ (ClaudeApiService.mockProcessTranscript env tr rid).highPriorityTasks
          ++ (ClaudeApiService.mockProcessTranscript env tr rid).mediumPriorityTasks,
        t.title ≠ "File your taxes" ∧ t.title ≠ "Take your dog to the vet"
          ∧ t.title ≠ "Plan vacation for burnout recovery") := by
  refine ⟨?_, ?_, ?_, ?_⟩
  · intro h
    unfold ClaudeApiService.mockProcessTranscript
    simp only [h, if_true]
    refine ⟨mockTaxTask env 0 env.today rid, ?_, rfl, rfl⟩
    simp
  · intro h
    unfold ClaudeApiService.mockProcessTranscript
    simp only [h, if_true, List.length_append, List.length_cons, List.length_nil,
      Nat.add_eq_zero, Nat.succ_ne_zero, and_false, false_and, if_false]
    exact ⟨_, List.mem_append_left _ (List.mem_append_right _ (List.mem_cons_self _ _)),
      rfl, rfl⟩
  · intro h
    unfold ClaudeApiService.mockProcessTranscript
    simp only [h, if_true]
    exact ⟨_, List.mem_append_right _ (List.mem_cons_self _ _), rfl, rfl⟩
  · intro k1 k2 k3 k4 k5 k6 k7 k8 k9 k10 k11 k12
    rw [mock_no_hits env tr rid k1 (by simp [k2]) (by simp [k5]) (by simp [k7, k8, k9])
      (by simp [k10, k11, k12])]
    intro t ht
    simp only [List.append_nil] at ht
    rcases List.mem_singleton.mp ht with rfl
    refine ⟨by simp [mockDefaultTask], by simp [mockDefaultTask], by simp [mockDefaultTask]⟩

/-- Witness for claim C2 at four concrete transcripts. -/
theorem mock_keyword_extraction_witness :
    (∃ t ∈ (ClaudeApiService.mockProcessTranscript demoEnv "pay my tax" "r1").highPriorityTasks,
      t.title = "File your taxes" ∧ t.priority = .high)
    ∧ (∃ t ∈ (ClaudeApiService.mockProcessTranscript demoEnv "take the dog to the vet"
          "r1").highPriorityTasks,
        t.title = "Take your dog to the vet" ∧ t.priority = .high)
    ∧ (∃ t ∈ (ClaudeApiService.mockProcessTranscript demoEnv "plan a vacation"
          "r1").mediumPriorityTasks,
        t.title = "Plan vacation for burnout recovery" ∧ t.priority = .medium)
    ∧ (∀ t ∈ (ClaudeApiService.mockProcessTranscript demoEnv "nothing here"
            "r1").highPriorityTasks
          ++ (ClaudeApiService.mockProcessTranscript demoEnv "nothing here"
            "r1").mediumPriorityTasks,
        t.title ≠ "File your taxes" ∧ t.title ≠ "Take your dog to the vet"
          ∧ t.title ≠ "Plan vacation for burnout recovery") :=
  ⟨(mock_keyword_extraction demoEnv "pay my tax" "r1").1 (by decide),
   (mock_keyword_extraction demoEnv "take the dog to the vet" "r1").2.1 (by decide),
   (mock_keyword_extraction demoEnv "plan a vacation" "r1").2.2.1 (by decide),
   (mock_keyword_extraction demoEnv "nothing here" "r1").2.2.2 (by decide) (by decide)
     (by decide) (by decide) (by decide) (by decide) (by decide) (by decide) (by decide)
     (by decide) (by decide) (by decide)⟩

set_option maxRecDepth 8192 in
/-- The built prompt is the template head, the transcript, and a closing newline. -/
lemma buildPrompt_eq (tr : String) :
    (ClaudeApiService.buildPrompt tr).data = promptHead.data ++ tr.data ++ "\n".data := rfl

/-- Claim C3, counterexample: in production mode, when the API request fails, processTranscript returns exactly the keyword-heuristic output, so production-mode tasks are not never the heuristic output. -/
theorem claude_production_failure_returns_mock :
    (ClaudeApiService.processTranscript "production" demoEnv .requestFailed
        "file my tax" "r1").response
      = ClaudeApiService.mockProcessTranscript demoEnv "file my tax" "r1" := rfl

/-- Claim C3, amended: processTranscript produces its tasks by the keyword heuristic exactly when the environment is not production or the production request fails (missing key, failed request, or unusable response JSON); only when the environment is production and the response parses does it return the parsed response, with recordingId and completed stamped onto every task. -/
theorem claude_processTranscript_mode (environment : String) (env : MockEnv)
    (outcome : ApiOutcome) (tr rid : String) :
    (environment ≠ "production" →
      (ClaudeApiService.processTranscript environment env outcome tr rid).response
        = ClaudeApiService.mockProcessTranscript env tr rid)
    ∧ (∀ r, environment = "production" → outcome = .parsed r →
      (ClaudeApiService.processTranscript environment env outcome tr rid).response
        = { highPriorityTasks := r.highPriorityTasks.map
              (fun t => { t with recordingId := rid, completed := false }),
            mediumPriorityTasks := r.mediumPriorityTasks.map
              (fun t => { t with recordingId := rid, completed := false }) })
    ∧ (environment = "production" →
      (outcome = .keyMissing ∨ outcome = .requestFailed ∨ outcome = .badJson) →
      (ClaudeApiService.processTranscript environment env outcome tr rid).response
        = ClaudeApiService.mockProcessTranscript env tr rid) := by
  refine ⟨?_, ?_, ?_⟩
  · intro h
    simp [ClaudeApiService.processTranscript, h]
  · rintro r rfl rfl
    simp [ClaudeApiService.processTranscript]
  · rintro rfl (rfl | rfl | rfl) <;> simp [ClaudeApiService.processTranscript]

/-- Witness for claim C3 at the three branch shapes. -/
theorem claude_processTranscript_mode_witness :
    ((ClaudeApiService.processTranscript "development" demoEnv .badJson "hi" "r1").response
      = ClaudeApiService.mockProcessTranscript demoEnv "hi" "r1")
    ∧ ((ClaudeApiService.processTranscript "production" demoEnv (.parsed demoParsed)
          "hi" "r1").response
        = { highPriorityTasks := demoParsed.highPriorityTasks.map
              (fun t => { t with recordingId := "r1", completed := false }),
            mediumPriorityTasks := demoParsed.mediumPriorityTasks.map
              (fun t => { t with recordingId := "r1", completed := false }) })
    ∧ ((ClaudeApiService.processTranscript "production" demoEnv .keyMissing "hi" "r1").response
        = ClaudeApiService.mockProcessTranscript demoEnv "hi" "r1") :=
  ⟨(claude_processTranscript_mode "development" demoEnv .badJson "hi" "r1").1 (by decide),
   (claude_processTranscript_mode "production" demoEnv (.parsed demoParsed) "hi" "r1").2.1
     demoParsed rfl rfl,
   (claude_processTranscript_mode "production" demoEnv .keyMissing "hi" "r1").2.2 rfl
     (Or.inl rfl)⟩

/-- Claim C4, counterexample: in production mode, when the response text has no usable JSON, processTranscript still returns a result, the keyword-heuristic output, instead of failing with an error. -/
theorem claude_production_badJson_returns_result :
    (ClaudeApiService.processTranscript "production" demoEnv .badJson "hello" "r1").response
      = ClaudeApiService.mockProcessTranscript demoEnv "hello" "r1" := rfl

/-- Claim C4, amended: in production mode the transcript is substituted into the prompt template and forwarded whenever the API key lookup succeeds; when the response has no extractable JSON or the request fails, the call falls back to the keyword-heuristic result instead of failing. -/
theorem claude_production_prompt_and_fallback (env : MockEnv) (outcome : ApiOutcome)
    (tr rid : String) :
    (outcome ≠ .keyMissing →
      (ClaudeApiService.processTranscript "production" env outcome tr rid).sentPrompt
        = some (ClaudeApiService.buildPrompt tr))
    ∧ ((ClaudeApiService.processTranscript "production" env .keyMissing tr rid).sentPrompt
        = none)
    ∧ ((ClaudeApiService.buildPrompt tr).data = promptHead.data ++ tr.data ++ "\n".data)
    ∧ ((ClaudeApiService.processTranscript "production" env .badJson tr rid).response
        = ClaudeApiService.mockProcessTranscript env tr rid)
    ∧ ((ClaudeApiService.processTranscript "production" env .requestFailed tr rid).response
        = ClaudeApiService.mockProcessTranscript env tr rid) := by
  refine ⟨?_, rfl, buildPrompt_eq tr, rfl, rfl⟩
  intro h
  cases outcome with
  | keyMissing => exact absurd rfl h
  | requestFailed => rfl
  | badJson => rfl
  | parsed r => rfl

/-- Witness for claim C4 at a concrete transcript. -/
theorem claude_production_prompt_and_fallback_witness :
    ((ClaudeApiService.processTranscript "production" demoEnv .badJson "my memo"
        "r1").sentPrompt = some (ClaudeApiService.buildPrompt "my memo"))
    ∧ ((ClaudeApiService.processTranscript "production" demoEnv .keyMissing "my memo"
        "r1").sentPrompt = none)
    ∧ ((ClaudeApiService.buildPrompt "my memo").data
        = promptHead.data ++ "my memo".data ++ "\n".data)
    ∧ ((ClaudeApiService.processTranscript "production" demoEnv .badJson "my memo"
        "r1").response = ClaudeApiService.mockProcessTranscript demoEnv "my memo" "r1")
    ∧ ((ClaudeApiService.processTranscript "production" demoEnv .requestFailed "my memo"
        "r1").response = ClaudeApiService.mockProcessTranscript demoEnv "my memo" "r1") :=
  ⟨(claude_production_prompt_and_fallback demoEnv .badJson "my memo" "r1").1 (by intro h; cases h),
   (claude_production_prompt_and_fallback demoEnv .keyMissing "my memo" "r1").2.1,
   (claude_production_prompt_and_fallback demoEnv .badJson "my memo" "r1").2.2.1,
   (claude_production_prompt_and_fallback demoEnv .badJson "my memo" "r1").2.2.2.1,
   (claude_production_prompt_and_fallback demoEnv .requestFailed "my memo" "r1").2.2.2.2⟩

/-- Every task the Claude service returns carries the recording id. -/
lemma claude_response_stamped (environment : String) (env : MockEnv) (outcome : ApiOutcome)
    (tr rid : String) :
    (∀ t ∈ (ClaudeApiService.processTranscript environment env outcome tr
        rid).response.highPriorityTasks, t.recordingId = rid)
    ∧ (∀ t ∈ (ClaudeApiService.processTranscript environment env outcome tr
        rid).response.mediumPriorityTasks, t.recordingId = rid) := by
  have hmock := mock_response_forall env tr rid
    (fun t => t.recordingId = rid) (fun t => t.recordingId = rid)
    (fun _ _ => rfl) (fun _ _ => rfl) (fun _ _ => rfl) (fun _ _ => rfl)
    (fun _ _ => rfl) (fun _ _ => rfl)
  unfold ClaudeApiService.processTranscript
  split
  · exact hmock
  · cases outcome with
    | keyMissing => exact hmock
    | requestFailed => exact hmock
    | badJson => exact hmock
    | parsed r =>
      constructor <;> intro t ht <;>
        simp only [List.mem_map] at ht <;>
        obtain ⟨u, _, rfl⟩ := ht <;> rfl

/-- Generated ids are never empty. -/
lemma generateSecureId_ne_empty (gen : Nat → String) (k : Nat) (pre : String) :
    generateSecureId gen k pre ≠ "" := by
  intro h
  have h2 := congrArg String.length h
  simp [generateSecureId, String.length_append] at h2
  exact absurd h2.1.2 (by decide)

/-- Normalized subtasks have ids and cleared completion flags. -/
lemma normalizeSubTasks_forall (gen : Nat → String) (l : List SubTask) (c : Nat) :
    ∀ s ∈ (normalizeSubTasks gen l c).1, s.id ≠ "" ∧ s.completed = false := by
  induction l generalizing c with
  | nil => simp [normalizeSubTasks]
  | cons a rest ih =>
    intro s hs
    simp only [normalizeSubTasks] at hs
    rcases List.mem_cons.mp hs with rfl | hs
    · unfold normalizeSubTask
      split
      · exact ⟨generateSecureId_ne_empty gen c "subtask", rfl⟩
      · rename_i hne
        exact ⟨hne, rfl⟩
    · exact ih _ s hs

/-- Normalized tasks have ids, cleared completion flags, normalized subtasks, and keep their recording id. -/
lemma normalizeTasks_forall (gen : Nat → String) (l : List Task) (c : Nat) :
    ∀ t ∈ (normalizeTasks gen l c).1,
      (∃ u ∈ l, t.recordingId = u.recordingId) ∧ t.id ≠ "" ∧ t.completed = false ∧
        (∀ subs, t.subTasks = some subs → ∀ s ∈ subs, s.id ≠ "" ∧ s.completed = false) := by
  induction l generalizing c with
  | nil => simp [normalizeTasks]
  | cons a rest ih =>
    intro t ht
    simp only [normalizeTasks] at ht
    rcases List.mem_cons.mp ht with rfl | ht
    · refine ⟨⟨a, by simp, ?_⟩, ?_, ?_, ?_⟩
      all_goals unfold normalizeTask
      all_goals cases hsub : a.subTasks
      · rfl
      · rfl
      · simp only []
        split
        · exact generateSecureId_ne_empty gen c "task"
        · rename_i hne
          exact hne
      · simp only []
        split
        · exact generateSecureId_ne_empty gen c "task"
        · rename_i hne
          exact hne
      · rfl
      · rfl
      · intro subs hsome
        simp [hsub] at hsome
      · intro subs hsome
        rename_i l2
        simp only [hsub] at hsome
        cases hsome
        exact normalizeSubTasks_forall gen l2 _
    · obtain ⟨⟨u, hu, he⟩, h2, h3, h4⟩ := ih _ t ht
      exact ⟨⟨u, by simp [hu], he⟩, h2, h3, h4⟩

/-- Every task in the TaskService response carries the recording id. -/
lemma taskService_response_rid (st : TaskState) (environment : String) (env : MockEnv)
    (outcome : ApiOutcome) (gen : Nat → String) (tr rid : String) :
    (∀ t ∈ (TaskService.processTranscript st environment env outcome gen tr
        rid).2.highPriorityTasks, t.recordingId = rid)
    ∧ (∀ t ∈ (TaskService.processTranscript st environment env outcome gen tr
        rid).2.mediumPriorityTasks, t.recordingId = rid) := by
  obtain ⟨hc1, hc2⟩ := claude_response_stamped environment env outcome tr rid
  constructor <;> intro t ht <;>
    simp only [TaskService.processTranscript] at ht
  · obtain ⟨⟨u, hu, he⟩, _, _, _⟩ := normalizeTasks_forall gen _ _ t ht
    exact he.trans (hc1 u hu)
  · obtain ⟨⟨u, hu, he⟩, _, _, _⟩ := normalizeTasks_forall gen _ _ t ht
    exact he.trans (hc2 u hu)

/-- Claim C7: every task in the response of TaskService.processTranscript has a non-empty id, completed = false and recordingId equal to the processed recording, and every subtask of such a task has a non-empty id and completed = false. -/
theorem taskService_tasks_wellformed (st : TaskState) (environment : String) (env : MockEnv)
    (outcome : ApiOutcome) (gen : Nat → String) (tr rid : String) :
    (∀ t ∈ (TaskService.processTranscript st environment env outcome gen tr
        rid).2.highPriorityTasks,
      t.id ≠ "" ∧ t.completed = false ∧ t.recordingId = rid ∧
        ∀ subs, t.subTasks = some subs → ∀ s ∈ subs, s.id ≠ "" ∧ s.completed = false)
    ∧ (∀ t ∈ (TaskService.processTranscript st environment env outcome gen tr
        rid).2.mediumPriorityTasks,
      t.id ≠ "" ∧ t.completed = false ∧ t.recordingId = rid ∧
        ∀ subs, t.subTasks = some subs → ∀ s ∈ subs, s.id ≠ "" ∧ s.completed = false) := by
  obtain ⟨hr1, hr2⟩ := taskService_response_rid st environment env outcome gen tr rid
  constructor <;> intro t ht <;>
    refine ?_
  · have ht' := ht
    simp only [TaskService.processTranscript] at ht'
    obtain ⟨_, h2, h3, h4⟩ := normalizeTasks_forall gen _ _ t ht'
    exact ⟨h2, h3, hr1 t ht, h4⟩
  · have ht' := ht
    simp only [TaskService.processTranscript] at ht'
    obtain ⟨_, h2, h3, h4⟩ := normalizeTasks_forall gen _ _ t ht'
    exact ⟨h2, h3, hr2 t ht, h4⟩

/-- Witness for claim C7 at the task extracted from a tax transcript. -/
theorem taskService_tasks_wellformed_witness :
    (mockTaxTask demoEnv 0 0 "r9").id ≠ ""
    ∧ (mockTaxTask demoEnv 0 0 "r9").completed = false
    ∧ (mockTaxTask demoEnv 0 0 "r9").recordingId = "r9"
    ∧ (∀ subs, (mockTaxTask demoEnv 0 0 "r9").subTasks = some subs →
        ∀ s ∈ subs, s.id ≠ "" ∧ s.completed = false) :=
  (taskService_tasks_wellformed
      { highPriorityTasks := [], mediumPriorityTasks := [], completedTasks := [] }
      "development" demoEnv .badJson (fun _ => "g") "pay my tax" "r9").1
    (mockTaxTask demoEnv 0 0 "r9") (by decide)

/-- Splitting a filtered-plus-appended list back by the recording id tag. -/
lemma filter_tag_append (rid : String) (old new : List Task)
    (hnew : ∀ x ∈ new, x.recordingId = rid) :
    ((old.filter (fun t => !(t.recordingId == rid)) ++ new).filter
        (fun t => t.recordingId == rid) = new)
    ∧ ((old.filter (fun t => !(t.recordingId == rid)) ++ new).filter
        (fun t => !(t.recordingId == rid)) = old.filter (fun t => !(t.recordingId == rid))) := by
  have e1 : (old.filter (fun t => !(t.recordingId == rid))).filter
      (fun t => t.recordingId == rid) = [] := by
    rw [List.filter_filter]
    apply List.filter_eq_nil_iff.mpr
    intro a ha
    simp
  have e2 : new.filter (fun t => t.recordingId == rid) = new :=
    List.filter_eq_self.mpr (fun a ha => by simp [hnew a ha])
  have e3 : (old.filter (fun t => !(t.recordingId == rid))).filter
      (fun t => !(t.recordingId == rid)) = old.filter (fun t => !(t.recordingId == rid)) := by
    rw [List.filter_filter]
    simp
  have e4 : new.filter (fun t => !(t.recordingId == rid)) = [] :=
    List.filter_eq_nil_iff.mpr (fun a ha => by simp [hnew a ha])
  rw [List.filter_append, List.filter_append, e1, e2, e3, e4]
  simp

/-- Claim C1: after TaskService.processTranscript for a recording id, the stored high- and medium-priority lists hold exactly the returned tasks for that id and no others, while tasks stored under other recording ids are unchanged. -/
theorem taskService_processTranscript_replaces (st : TaskState) (environment : String)
    (env : MockEnv) (outcome : ApiOutcome) (gen : Nat → String) (tr rid : String) :
    ((TaskService.processTranscript st environment env outcome gen tr
        rid).1.highPriorityTasks.filter (fun t => t.recordingId == rid)
      = (TaskService.processTranscript st environment env outcome gen tr
        rid).2.highPriorityTasks)
    ∧ ((TaskService.processTranscript st environment env outcome gen tr
        rid).1.highPriorityTasks.filter (fun t => !(t.recordingId == rid))
      = st.highPriorityTasks.filter (fun t => !(t.recordingId == rid)))
    ∧ ((TaskService.processTranscript st environment env outcome gen tr
        rid).1.mediumPriorityTasks.filter (fun t => t.recordingId == rid)
      = (TaskService.processTranscript st environment env outcome gen tr
        rid).2.mediumPriorityTasks)
    ∧ ((TaskService.processTranscript st environment env outcome gen tr
        rid).1.mediumPriorityTasks.filter (fun t => !(t.recordingId == rid))
      = st.mediumPriorityTasks.filter (fun t => !(t.recordingId == rid))) := by
  obtain ⟨hr1, hr2⟩ := taskService_response_rid st environment env outcome gen tr rid
  obtain ⟨f1, f2⟩ := filter_tag_append rid st.highPriorityTasks _ hr1
  obtain ⟨f3, f4⟩ := filter_tag_append rid st.mediumPriorityTasks _ hr2
  exact ⟨f1, f2, f3, f4⟩

end Janaru
